import Mathlib

/-!
Shallow embedding of the `money_transfer` repository's transfer-orchestration
core (`src/transactions_service`), over exact rationals.

Monetary values are modelled as `ℚ`.  The source rounds with Python's
built-in `round(x, 2)` on floats; here `round2` rounds the exact rational at
the 2-decimal boundary with `round` (nearest integer, half-integer ties up).
No property below depends on tie behaviour, and the ±1/200 bound used in the
proofs holds for either tie rule.

Timestamps (`created_at` / `updated_at`) carry no behavioural content for the
properties below and are omitted from the `Transfer` record.
-/

namespace MoneyTransfer

/-- Rounding to two decimal places, the embedding of Python `round(x, 2)`
applied to the exact rational value. -/
def round2 (x : ℚ) : ℚ := (round (100 * x) : ℤ) / 100

/-- Failure modes of the pure commission calculator
(`calc_from_mode` / `calc_to_mode` raise `ValueError` in the source). -/
inductive CalcError where
  | nonPositiveResult
  | invalidCommission
deriving DecidableEq, Repr

/-- Embedding of `calc_from_mode` (transactions_service/main.py, lines
192-200): `gross = amount_from * rate`, `commission = gross * (p/100) + f`,
`amount_to = gross - commission`; raises when `amount_to <= 0` (checked on
the unrounded value), otherwise returns
`(round(amount_to, 2), round(commission, 2))`. -/
def calc_from_mode (amount_from rate p f : ℚ) : Except CalcError (ℚ × ℚ) :=
  let gross := amount_from * rate
  let commission := gross * (p / 100) + f
  let amount_to := gross - commission
  if amount_to ≤ 0 then Except.error CalcError.nonPositiveResult
  else Except.ok (round2 amount_to, round2 commission)

/-- Embedding of `calc_to_mode` (transactions_service/main.py, lines
203-212): `percent_factor = 1 - p/100`, rejected when `percent_factor <= 0`;
`gross_needed = (amount_to_wanted + f) / percent_factor`,
`amount_from_required = gross_needed / rate`,
`commission = gross_needed - amount_to_wanted`, both results rounded. -/
def calc_to_mode (amount_to_wanted rate p f : ℚ) : Except CalcError (ℚ × ℚ) :=
  let percent_factor := 1 - p / 100
  if percent_factor ≤ 0 then Except.error CalcError.invalidCommission
  else
    let gross_needed := (amount_to_wanted + f) / percent_factor
    let amount_from_required := gross_needed / rate
    let commission := gross_needed - amount_to_wanted
    Except.ok (round2 amount_from_required, round2 commission)

/-- The request mode, pydantic `Literal["from", "to"]`. -/
inductive Mode where
  | fromMode
  | toMode
deriving DecidableEq, Repr

/-- Embedding of the `Account` row (transactions_service/models.py). -/
structure Account where
  id : Nat
  owner_email : String
  currency : String
  balance : ℚ
deriving DecidableEq, Repr

/-- Embedding of the `Transfer` row (transactions_service/models.py);
timestamps omitted. -/
structure Transfer where
  id : Nat
  from_account_id : Nat
  to_account_id : Nat
  currency_from : String
  currency_to : String
  amount_from : ℚ
  amount_to : ℚ
  commission_percent : ℚ
  commission_fixed : ℚ
  commission_amount : ℚ
  rate_used : ℚ
  status : String
  client_key : Option String
deriving DecidableEq, Repr

/-- Embedding of the `TransferOut` response schema
(transactions_service/schemas.py). -/
structure TransferOut where
  id : Nat
  status : String
  from_account_id : Nat
  to_account_id : Nat
  currency_from : String
  currency_to : String
  amount_from : ℚ
  amount_to : ℚ
  commission_amount : ℚ
  rate_used : ℚ
deriving DecidableEq, Repr

/-- `TransferOut.model_validate(transfer)`: projection of a `Transfer` row
onto the response schema. -/
def TransferOut.ofTransfer (t : Transfer) : TransferOut :=
  { id := t.id
    status := t.status
    from_account_id := t.from_account_id
    to_account_id := t.to_account_id
    currency_from := t.currency_from
    currency_to := t.currency_to
    amount_from := t.amount_from
    amount_to := t.amount_to
    commission_amount := t.commission_amount
    rate_used := t.rate_used }

/-- Embedding of the `TransferCreate` request schema
(transactions_service/schemas.py).  The pydantic fields
`commission_percent: float = 0.0` and `commission_fixed: float = 0.0` are
plain floats with default `0.0`, so after validation they are always present
(never `None`); `amount` carries the validation constraint `gt=0`, stated as
a hypothesis where needed. -/
structure TransferCreate where
  from_account_id : Nat
  to_account_id : Nat
  mode : Mode
  amount : ℚ
  commission_percent : ℚ
  commission_fixed : ℚ
  client_key : Option String
deriving DecidableEq, Repr

/-- Pydantic validation of a wire request: omitted `commission_percent` /
`commission_fixed` fields are filled with the schema defaults `0.0` / `0.0`
(schemas.py, lines 11-12). -/
def TransferCreate.ofWire (fid tid : Nat) (mode : Mode) (amount : ℚ)
    (cp cf : Option ℚ) (ck : Option String) : TransferCreate :=
  { from_account_id := fid
    to_account_id := tid
    mode := mode
    amount := amount
    commission_percent := cp.getD 0
    commission_fixed := cf.getD 0
    client_key := ck }

/-- `DEFAULT_PERCENT` from transactions_service/main.py, line 41. -/
def DEFAULT_PERCENT : ℚ := 1

/-- `DEFAULT_FIXED` from transactions_service/main.py, line 42. -/
def DEFAULT_FIXED : ℚ := 0

/-- The mock rate table of `RatesProvider.get_rate`
(transactions_service/main.py, lines 64-73), with the float entries read as
exact rationals. -/
def rates_table : List ((String × String) × ℚ) :=
  [ (("USD", "KZT"), 540)
  , (("KZT", "USD"), 1 / 540)
  , (("EUR", "KZT"), 628)
  , (("KZT", "EUR"), 1 / 628)
  , (("EUR", "USD"), 1162881 / 1000000)
  , (("USD", "EUR"), 1000000 / 1162881) ]

/-- Embedding of `RatesProvider.get_rate` in mock mode: upper-case both
codes, return 1 for equal codes, else look the pair up in the table with
default 1. -/
def get_rate (base quote : String) : ℚ :=
  let b := base.toUpper
  let q := quote.toUpper
  if b == q then 1
  else ((rates_table.find? (fun e => e.1.1 == b && e.1.2 == q)).map
    (fun e => e.2)).getD 1

/-- The error outcomes `create_transfer` can surface to the caller
(HTTP 404 / 403 / 400 / 500 and the unhandled calculator `ValueError`). -/
inductive TransferError where
  | accountNotFound
  | forbidden
  | insufficientFunds
  | calcError (e : CalcError)
  | transferFailed
deriving DecidableEq, Repr

/-- Committed database state of the transactions service: the `accounts` and
`transfers` tables plus the autoincrement counter that yields the next
`Transfer.id` at flush time. -/
structure DBState where
  accounts : List Account
  transfers : List Transfer
  next_transfer_id : Nat
deriving DecidableEq, Repr

/-- The replay lookup at the top of `create_transfer` (main.py, lines
247-251): performed only when `payload.client_key` is truthy (Python
`if payload.client_key:` skips both `None` and the empty string). -/
def clientKeyLookup (transfers : List Transfer) (ck : Option String) :
    Option Transfer :=
  match ck with
  | none => none
  | some k =>
    if k == "" then none
    else transfers.find? (fun t => t.client_key == some k)

/-- Assign a new balance to the account with the given id. -/
def setBalance (accs : List Account) (aid : Nat) (nb : ℚ) : List Account :=
  accs.map (fun a => if a.id == aid then { a with balance := nb } else a)

/-- The compensating write of the `except` block (main.py, lines 378-384):
a separate session marks the transfer with the given id `failed` — a no-op
when no committed row has that id. -/
def markFailed (st : DBState) (tid : Nat) : DBState :=
  { st with
    transfers := st.transfers.map
      (fun t => if t.id == tid then { t with status := "failed" } else t) }

/-- Balance of the account with the given id, when present. -/
def balanceOf (st : DBState) (aid : Nat) : Option ℚ :=
  (st.accounts.find? (fun a => a.id == aid)).map (fun a => a.balance)

/-- The mode dispatch of main.py, lines 293-298, producing
`(amount_from, amount_to, commission_amount)`: in from-mode `amount_from` is
the raw payload amount and `calc_from_mode` yields the rest; in to-mode
`amount_to` is the raw payload amount and `calc_to_mode` yields the rest. -/
def calcAmounts (mode : Mode) (amount rate p f : ℚ) :
    Except CalcError (ℚ × ℚ × ℚ) :=
  match mode with
  | Mode.fromMode =>
    match calc_from_mode amount rate p f with
    | Except.error e => Except.error e
    | Except.ok (amount_to, commission) =>
      Except.ok (amount, amount_to, commission)
  | Mode.toMode =>
    match calc_to_mode amount rate p f with
    | Except.error e => Except.error e
    | Except.ok (amount_from, commission) =>
      Except.ok (amount_from, amount, commission)

/-- Embedding of the `create_transfer` endpoint (main.py, lines 240-395).

`st` is the committed database state; the returned state is the committed
state after the request.  `rate` stands for the awaited result of
`rates.get_rate(from_acc.currency, to_acc.currency)` (the mock table is
`get_rate`).  `failMutation` injects an exception into the atomic mutation
unit between the Transfer flush and the commit (the `try` block, lines
332-342); on that path the session rollback discards the uncommitted
Transfer insert and balance updates, and the compensating session
(`markFailed`) looks the transfer id up in the committed state.

The commission parameters are read directly from the payload: the guard
`payload.commission_percent is not None else DEFAULT_PERCENT` (lines
282-291) can never select the default because the pydantic field is a
non-optional float.

The two account selects share the session identity map, so when
`from_account_id = to_account_id` both names alias one row; the sequential
balance writes (lines 336-337) are embedded with that aliasing. -/
def create_transfer (st : DBState) (payload : TransferCreate) (user : String)
    (rate : ℚ) (failMutation : Bool) :
    DBState × Except TransferError TransferOut :=
  match clientKeyLookup st.transfers payload.client_key with
  | some prev => (st, Except.ok (TransferOut.ofTransfer prev))
  | none =>
    match st.accounts.find? (fun a => a.id == payload.from_account_id),
          st.accounts.find? (fun a => a.id == payload.to_account_id) with
    | some from_acc, some to_acc =>
      if from_acc.owner_email ≠ user then
        (st, Except.error TransferError.forbidden)
      else
        let p := payload.commission_percent
        let f := payload.commission_fixed
        match calcAmounts payload.mode payload.amount rate p f with
        | Except.error e => (st, Except.error (TransferError.calcError e))
        | Except.ok (amount_from, amount_to, commission_amount) =>
          if from_acc.balance < amount_from then
            (st, Except.error TransferError.insufficientFunds)
          else
            let transfer : Transfer :=
              { id := st.next_transfer_id
                from_account_id := from_acc.id
                to_account_id := to_acc.id
                currency_from := from_acc.currency
                currency_to := to_acc.currency
                amount_from := amount_from
                amount_to := amount_to
                commission_percent := p
                commission_fixed := f
                commission_amount := commission_amount
                rate_used := rate
                status := "created"
                client_key := payload.client_key }
            if failMutation then
              (markFailed st transfer.id,
               Except.error TransferError.transferFailed)
            else
              let b1 := from_acc.balance - amount_from
              let toBal := if to_acc.id == from_acc.id then b1
                else to_acc.balance
              let b2 := toBal + amount_to
              let accs2 :=
                setBalance (setBalance st.accounts from_acc.id b1) to_acc.id b2
              let transfer2 := { transfer with status := "completed" }
              (⟨accs2, st.transfers ++ [transfer2], st.next_transfer_id + 1⟩,
               Except.ok (TransferOut.ofTransfer transfer2))
    | _, _ => (st, Except.error TransferError.accountNotFound)

/-- The transfer row created and committed by the fresh (non-replay) path of
`create_transfer`, with final status `completed`. -/
def completedTransfer (st : DBState) (payload : TransferCreate)
    (fa ta : Account) (rate af at_ c : ℚ) : Transfer :=
  { id := st.next_transfer_id
    from_account_id := fa.id
    to_account_id := ta.id
    currency_from := fa.currency
    currency_to := ta.currency
    amount_from := af
    amount_to := at_
    commission_percent := payload.commission_percent
    commission_fixed := payload.commission_fixed
    commission_amount := c
    rate_used := rate
    status := "completed"
    client_key := payload.client_key }

/-- The committed state after the fresh path of `create_transfer`. -/
def freshState (st : DBState) (payload : TransferCreate) (fa ta : Account)
    (rate af at_ c : ℚ) : DBState :=
  { accounts :=
      setBalance (setBalance st.accounts fa.id (fa.balance - af)) ta.id
        ((if ta.id == fa.id then fa.balance - af else ta.balance) + at_)
    transfers := st.transfers ++ [completedTransfer st payload fa ta rate af at_ c]
    next_transfer_id := st.next_transfer_id + 1 }

/-! ### Concrete fixtures used by the witnesses -/

/-- A USD account used in concrete scenarios. -/
def accUSD : Account :=
  { id := 1, owner_email := "alice@test.com", currency := "USD",
    balance := 1000 }

/-- A KZT account used in concrete scenarios. -/
def accKZT : Account :=
  { id := 2, owner_email := "bob@test.com", currency := "KZT", balance := 0 }

/-- Initial committed state: two accounts, no transfers. -/
def st0 : DBState :=
  { accounts := [accUSD, accKZT], transfers := [], next_transfer_id := 1 }

/-- A USD account holding only 50.00, for the insufficient-funds scenario. -/
def accLowUSD : Account :=
  { id := 1, owner_email := "carol@test.com", currency := "USD",
    balance := 50 }

/-- State for the insufficient-funds scenario. -/
def stLow : DBState :=
  { accounts := [accLowUSD, accKZT], transfers := [], next_transfer_id := 1 }

/-- A completed transfer already stored under client_key "dup-1". -/
def storedTransfer : Transfer :=
  { id := 1, from_account_id := 1, to_account_id := 2,
    currency_from := "USD", currency_to := "KZT", amount_from := 100,
    amount_to := 53460, commission_percent := 1, commission_fixed := 0,
    commission_amount := 540, rate_used := 540, status := "completed",
    client_key := some "dup-1" }

/-- State holding only `storedTransfer` and no accounts at all. -/
def stReplay : DBState :=
  { accounts := [], transfers := [storedTransfer], next_transfer_id := 2 }

/-- The USD→KZT from-mode request of the 100-at-1% scenario. -/
def payloadC1 : TransferCreate :=
  TransferCreate.ofWire 1 2 Mode.fromMode 100 (some 1) (some 0) (some "w1")

/-- The same request body under client key "w3", for the idempotency
scenario. -/
def payloadC3 : TransferCreate :=
  TransferCreate.ofWire 1 2 Mode.fromMode 100 (some 1) (some 0) (some "w3")

/-- From-mode request for 100.00 against the 50.00 account. -/
def payloadC4 : TransferCreate :=
  TransferCreate.ofWire 1 2 Mode.fromMode 100 (some 1) (some 0) (some "w4")

/-- Request that replays the stored client key "dup-1". -/
def payloadDup : TransferCreate :=
  TransferCreate.ofWire 1 2 Mode.fromMode 100 (some 1) (some 0)
    (some "dup-1")

/-- Request used to exercise the injected mutation failure. -/
def payloadC2 : TransferCreate :=
  TransferCreate.ofWire 1 2 Mode.fromMode 100 (some 1) (some 0) (some "c2")

/-- Request with both commission fields omitted by the caller. -/
def payloadC9 : TransferCreate :=
  TransferCreate.ofWire 1 2 Mode.fromMode 100 none none none

/-! ### Helper lemmas about rounding and the calculators -/

/-- The 2-decimal rounding error is at most half a cent. -/
theorem abs_round2_sub_le (x : ℚ) : |round2 x - x| ≤ 1 / 200 := by
  have h : |100 * x - (round (100 * x) : ℚ)| ≤ 1 / 2 := abs_sub_round (100 * x)
  rw [abs_sub_comm] at h
  have hx : round2 x - x = ((round (100 * x) : ℚ) - 100 * x) / 100 := by
    rw [round2]; ring
  rw [hx, abs_div, abs_of_pos (by norm_num : (0 : ℚ) < 100)]
  linarith

/-- Rounding a nonnegative value at two decimals stays nonnegative. -/
theorem round2_nonneg {x : ℚ} (hx : 0 ≤ x) : 0 ≤ round2 x := by
  rw [round2, round_eq]
  have h : (0 : ℤ) ≤ ⌊100 * x + 1 / 2⌋ := by
    rw [Int.le_floor]
    push_cast
    linarith
  positivity

/-- Successful evaluation of `calc_from_mode` when the unrounded
`amount_to` is positive. -/
theorem calc_from_mode_ok (af r p f : ℚ)
    (h : 0 < af * r - (af * r * (p / 100) + f)) :
    calc_from_mode af r p f =
      Except.ok (round2 (af * r - (af * r * (p / 100) + f)),
                 round2 (af * r * (p / 100) + f)) := by
  rw [calc_from_mode, if_neg (not_le.mpr h)]

/-- `calc_from_mode` raises when the unrounded `amount_to` is
nonpositive. -/
theorem calc_from_mode_error (af r p f : ℚ)
    (h : af * r - (af * r * (p / 100) + f) ≤ 0) :
    calc_from_mode af r p f = Except.error CalcError.nonPositiveResult := by
  rw [calc_from_mode, if_pos h]

/-- Inversion of a successful `calc_from_mode` run. -/
theorem calc_from_mode_ok_elim {af r p f at_ c : ℚ}
    (h : calc_from_mode af r p f = Except.ok (at_, c)) :
    0 < af * r - (af * r * (p / 100) + f) ∧
      at_ = round2 (af * r - (af * r * (p / 100) + f)) ∧
      c = round2 (af * r * (p / 100) + f) := by
  rw [calc_from_mode] at h
  split at h
  · exact absurd h (by simp)
  · next hle =>
    refine ⟨by linarith [not_le.mp hle], ?_, ?_⟩ <;>
      simp only [Except.ok.injEq, Prod.mk.injEq] at h
    · exact h.1.symm
    · exact h.2.symm

/-- Inversion of a successful `calc_to_mode` run. -/
theorem calc_to_mode_ok_elim {A r p f af c : ℚ}
    (h : calc_to_mode A r p f = Except.ok (af, c)) :
    0 < 1 - p / 100 ∧
      af = round2 ((A + f) / (1 - p / 100) / r) ∧
      c = round2 ((A + f) / (1 - p / 100) - A) := by
  rw [calc_to_mode] at h
  split at h
  · exact absurd h (by simp)
  · next hle =>
    refine ⟨by linarith [not_le.mp hle], ?_, ?_⟩ <;>
      simp only [Except.ok.injEq, Prod.mk.injEq] at h
    · exact h.1.symm
    · exact h.2.symm

/-- The from-mode arm of `calcAmounts` on a positive unrounded result. -/
theorem calcAmounts_from (amount r p f : ℚ)
    (h : 0 < amount * r - (amount * r * (p / 100) + f)) :
    calcAmounts Mode.fromMode amount r p f =
      Except.ok (amount,
        round2 (amount * r - (amount * r * (p / 100) + f)),
        round2 (amount * r * (p / 100) + f)) := by
  rw [calcAmounts, calc_from_mode_ok amount r p f h]

/-- A successful `calcAmounts` run never yields a negative `amount_to`. -/
theorem calcAmounts_amount_to_nonneg {mode : Mode} {amount r p f af at_ c : ℚ}
    (hamt : 0 < amount)
    (h : calcAmounts mode amount r p f = Except.ok (af, at_, c)) :
    0 ≤ at_ := by
  cases mode
  case fromMode =>
    rw [calcAmounts] at h
    rcases hcf : calc_from_mode amount r p f with e | v
    · rw [hcf] at h; exact absurd h (by simp)
    · rcases v with ⟨v1, v2⟩
      rw [hcf] at h
      obtain ⟨hpos, hat, -⟩ := calc_from_mode_ok_elim hcf
      simp only [Except.ok.injEq, Prod.mk.injEq] at h
      rw [← h.2.1, hat]
      exact round2_nonneg (le_of_lt hpos)
  case toMode =>
    rw [calcAmounts] at h
    rcases hct : calc_to_mode amount r p f with e | v
    · rw [hct] at h; exact absurd h (by simp)
    · rw [hct] at h
      rcases v with ⟨v1, v2⟩
      simp only [Except.ok.injEq, Prod.mk.injEq] at h
      rw [← h.2.1]
      exact le_of_lt hamt

/-! ### Helper lemmas about the ledger state -/

/-- Looking an account up after `setBalance` is the lookup in the original
list with the update applied to the found element. -/
theorem find?_setBalance (accs : List Account) (aid : Nat) (nb : ℚ)
    (pid : Nat) :
    (setBalance accs aid nb).find? (fun a => a.id == pid) =
      (accs.find? (fun a => a.id == pid)).map
        (fun a => if a.id == aid then { a with balance := nb } else a) := by
  induction accs with
  | nil => rfl
  | cons a l ih =>
    have hid : (if a.id == aid then { a with balance := nb } else a).id =
        a.id := by
      split <;> rfl
    by_cases h2 : (a.id == pid) = true
    · rw [setBalance, List.map_cons,
        @List.find?_cons_of_pos Account (fun x => x.id == pid) _ _
          (by simp only [hid]; exact h2),
        @List.find?_cons_of_pos Account (fun x => x.id == pid) a l h2]
      rfl
    · rw [setBalance, List.map_cons,
        @List.find?_cons_of_neg Account (fun x => x.id == pid) _ _
          (by simp only [hid]; exact h2),
        @List.find?_cons_of_neg Account (fun x => x.id == pid) a l h2]
      rw [setBalance] at ih
      exact ih

/-- `find?` over an append whose first part has no match. -/
theorem find?_append_of_none {α : Type} {p : α → Bool} {l1 l2 : List α}
    (h : l1.find? p = none) : (l1 ++ l2).find? p = l2.find? p := by
  rw [List.find?_append, h, Option.none_or]

/-- Evaluation of the fresh (non-replay, all checks passing, no injected
failure) path of `create_transfer`. -/
theorem create_transfer_fresh
    (st : DBState) (payload : TransferCreate) (user : String) (rate : ℚ)
    (fa ta : Account) (af at_ c : ℚ)
    (hfresh : clientKeyLookup st.transfers payload.client_key = none)
    (hfa : st.accounts.find? (fun a => a.id == payload.from_account_id) =
      some fa)
    (hta : st.accounts.find? (fun a => a.id == payload.to_account_id) =
      some ta)
    (howner : fa.owner_email = user)
    (hcalc : calcAmounts payload.mode payload.amount rate
      payload.commission_percent payload.commission_fixed =
      Except.ok (af, at_, c))
    (hfunds : ¬ fa.balance < af) :
    create_transfer st payload user rate false =
      (freshState st payload fa ta rate af at_ c,
       Except.ok (TransferOut.ofTransfer
         (completedTransfer st payload fa ta rate af at_ c))) := by
  rw [create_transfer, hfresh, hfa, hta]
  simp only [howner, ne_eq, not_true_eq_false, if_false, hcalc, hfunds,
    if_true, Bool.false_eq_true, freshState, completedTransfer]

/-- Evaluation of the replay path of `create_transfer`: a truthy
`client_key` that matches a stored transfer returns that transfer and leaves
the state untouched, for any caller, rate and failure injection. -/
theorem create_transfer_replay
    (st : DBState) (payload : TransferCreate) (user : String) (rate : ℚ)
    (fm : Bool) (k : String) (t : Transfer)
    (hk : payload.client_key = some k) (hk0 : k ≠ "")
    (hfound : st.transfers.find? (fun tr => tr.client_key == some k) =
      some t) :
    create_transfer st payload user rate fm =
      (st, Except.ok (TransferOut.ofTransfer t)) := by
  have hlook : clientKeyLookup st.transfers payload.client_key = some t := by
    rw [hk]
    simp only [clientKeyLookup]
    rw [if_neg (by simpa using hk0), hfound]
  rw [create_transfer, hlook]

/-- Evaluation of the insufficient-funds rejection path of
`create_transfer`. -/
theorem create_transfer_insufficient
    (st : DBState) (payload : TransferCreate) (user : String) (rate : ℚ)
    (fm : Bool) (fa ta : Account) (af at_ c : ℚ)
    (hfresh : clientKeyLookup st.transfers payload.client_key = none)
    (hfa : st.accounts.find? (fun a => a.id == payload.from_account_id) =
      some fa)
    (hta : st.accounts.find? (fun a => a.id == payload.to_account_id) =
      some ta)
    (howner : fa.owner_email = user)
    (hcalc : calcAmounts payload.mode payload.amount rate
      payload.commission_percent payload.commission_fixed =
      Except.ok (af, at_, c))
    (hins : fa.balance < af) :
    create_transfer st payload user rate fm =
      (st, Except.error TransferError.insufficientFunds) := by
  rw [create_transfer, hfresh, hfa, hta]
  simp only [howner, ne_eq, not_true_eq_false, if_false, hcalc, hins, if_true]

/-! ### Claims about the pure commission calculator -/

/-- C5: for every to-mode input with `amount_to_wanted > 0` and `rate > 0`,
if `percent_factor = 1 − p/100 ≤ 0` the calculation fails with
`InvalidCommission`; otherwise it returns
`amount_from_required = round(((amount_to_wanted + f) / percent_factor) / rate, 2)`
and `commission = round((amount_to_wanted + f) / percent_factor − amount_to_wanted, 2)`. -/
theorem to_mode_calc_spec (A r p f : ℚ) (hA : 0 < A) (hr : 0 < r) :
    (1 - p / 100 ≤ 0 →
      calc_to_mode A r p f = Except.error CalcError.invalidCommission) ∧
    (0 < 1 - p / 100 →
      calc_to_mode A r p f =
        Except.ok (round2 ((A + f) / (1 - p / 100) / r),
                   round2 ((A + f) / (1 - p / 100) - A))) := by
  refine ⟨fun h => ?_, fun h => ?_⟩
  · simp only [calc_to_mode]
    rw [if_pos h]
  · simp only [calc_to_mode]
    rw [if_neg (not_le.mpr h)]

/-- Witness for C5 at `amount_to_wanted = 20000`, `rate = 540`: commission
percent 100 is rejected, commission percent 1 yields the rounded pair. -/
theorem to_mode_calc_spec_witness :
    ((0 : ℚ) < 20000 ∧ (0 : ℚ) < 540 ∧ (1 - (100 : ℚ) / 100 ≤ 0) ∧
      calc_to_mode 20000 540 100 0 =
        Except.error CalcError.invalidCommission) ∧
    ((0 : ℚ) < 1 - (1 : ℚ) / 100 ∧
      calc_to_mode 20000 540 1 0 =
        Except.ok (round2 ((20000 + 0) / (1 - (1 : ℚ) / 100) / 540),
                   round2 ((20000 + 0) / (1 - (1 : ℚ) / 100) - 20000))) :=
  ⟨⟨by norm_num, by norm_num, by norm_num,
    (to_mode_calc_spec 20000 540 100 0 (by norm_num) (by norm_num)).1
      (by norm_num)⟩,
   ⟨by norm_num,
    (to_mode_calc_spec 20000 540 1 0 (by norm_num) (by norm_num)).2
      (by norm_num)⟩⟩

/-- C8 counterexample: at `amount_from = 1/250`, `rate = 1`, `p = 0`,
`f = 0`, the 2-decimal rounding of `amount_to` is `0 ≤ 0`, yet
`calc_from_mode` succeeds (the source checks the unrounded value before
rounding) and returns `amount_to = 0.00`. -/
theorem from_mode_rounding_boundary_counterexample :
    round2 ((1 / 250 : ℚ) * 1 - ((1 / 250 : ℚ) * 1 * (0 / 100) + 0)) ≤ 0 ∧
    calc_from_mode (1 / 250) 1 0 0 = Except.ok (0, 0) := by
  constructor
  · norm_num [round2, round_eq]
  · rw [calc_from_mode_ok (1 / 250) 1 0 0 (by norm_num)]
    norm_num [round2, round_eq, Except.ok.injEq, Prod.mk.injEq]

/-- C8 amended: `calc_from_mode` fails with `NonPositiveResult` exactly when
the unrounded `amount_to = amount_from × rate − (amount_from × rate × p/100 + f)`
is ≤ 0 (so a success may still return a rounded `amount_to` of `0.00`). -/
theorem from_mode_error_iff_unrounded_nonpositive (af r p f : ℚ) :
    calc_from_mode af r p f = Except.error CalcError.nonPositiveResult ↔
      af * r - (af * r * (p / 100) + f) ≤ 0 := by
  constructor
  · intro h
    by_contra hpos
    rw [not_le] at hpos
    rw [calc_from_mode_ok af r p f hpos] at h
    exact Except.noConfusion h
  · intro h
    exact calc_from_mode_error af r p f h

/-- C7 counterexample: in to-mode wanting exactly 20000.00 at rate 540 with
1% commission and no fixed fee, the returned `amount_from` is 37.41;
re-applying from-mode to it yields 19999.39, which differs from 20000.00 by
0.61 — more than one cent. -/
theorem to_mode_roundtrip_one_cent_counterexample :
    calc_to_mode 20000 540 1 0 = Except.ok (3741 / 100, 20202 / 100) ∧
    calc_from_mode (3741 / 100) 540 1 0 =
      Except.ok (1999939 / 100, 20201 / 100) ∧
    ¬ |(1999939 / 100 : ℚ) - 20000| ≤ 1 / 100 := by
  refine ⟨?_, ?_, ?_⟩
  · simp only [calc_to_mode]
    rw [if_neg (by norm_num)]
    norm_num [round2, round_eq, Except.ok.injEq, Prod.mk.injEq]
  · rw [calc_from_mode_ok (3741 / 100) 540 1 0 (by norm_num)]
    norm_num [round2, round_eq, Except.ok.injEq, Prod.mk.injEq]
  · rw [abs_of_nonpos (by norm_num)]
    norm_num

/-- C7 amended: for every valid to-mode input (positive wanted amount and
rate) on which both the to-mode calculation and the from-mode re-derivation
succeed, the round trip reproduces `amount_to_wanted` within half a cent
plus half a cent scaled by `rate × (1 − p/100)`, i.e.
`|amount_to − wanted| ≤ (1 + rate × (1 − p/100)) / 200`; the one-cent bound
of the original claim holds only when `rate × (1 − p/100) ≤ 1`. -/
theorem to_mode_roundtrip_bound (A r p f af c at_ c2 : ℚ)
    (hA : 0 < A) (hr : 0 < r)
    (hto : calc_to_mode A r p f = Except.ok (af, c))
    (hfrom : calc_from_mode af r p f = Except.ok (at_, c2)) :
    |at_ - A| ≤ (1 + r * (1 - p / 100)) / 200 := by
  obtain ⟨hpf, haf, -⟩ := calc_to_mode_ok_elim hto
  obtain ⟨hXpos, hat, -⟩ := calc_from_mode_ok_elim hfrom
  have hpf0 : (1 : ℚ) - p / 100 ≠ 0 := ne_of_gt hpf
  have hr0 : r ≠ 0 := ne_of_gt hr
  have hden : ((1 : ℚ) - p / 100) * r ≠ 0 := mul_ne_zero hpf0 hr0
  have hkey : (af - (A + f) / (1 - p / 100) / r) * (r * (1 - p / 100)) =
      (af * r - (af * r * (p / 100) + f)) - A := by
    rw [div_div, sub_mul, mul_comm r (1 - p / 100),
      div_mul_cancel₀ _ hden]
    ring
  have h1 : |af - (A + f) / (1 - p / 100) / r| ≤ 1 / 200 := by
    rw [haf]; exact abs_round2_sub_le _
  have h2 : |round2 (af * r - (af * r * (p / 100) + f)) -
      (af * r - (af * r * (p / 100) + f))| ≤ 1 / 200 :=
    abs_round2_sub_le _
  have hrpf : 0 < r * (1 - p / 100) := mul_pos hr hpf
  have hsplit : at_ - A =
      (round2 (af * r - (af * r * (p / 100) + f)) -
        (af * r - (af * r * (p / 100) + f))) +
      (af - (A + f) / (1 - p / 100) / r) * (r * (1 - p / 100)) := by
    rw [hat, hkey]; ring
  calc |at_ - A| = |(round2 (af * r - (af * r * (p / 100) + f)) -
        (af * r - (af * r * (p / 100) + f))) +
      (af - (A + f) / (1 - p / 100) / r) * (r * (1 - p / 100))| := by
        rw [hsplit]
    _ ≤ |round2 (af * r - (af * r * (p / 100) + f)) -
        (af * r - (af * r * (p / 100) + f))| +
      |(af - (A + f) / (1 - p / 100) / r) * (r * (1 - p / 100))| :=
        abs_add _ _
    _ = |round2 (af * r - (af * r * (p / 100) + f)) -
        (af * r - (af * r * (p / 100) + f))| +
      |af - (A + f) / (1 - p / 100) / r| * (r * (1 - p / 100)) := by
        rw [abs_mul, abs_of_pos hrpf]
    _ ≤ 1 / 200 + 1 / 200 * (r * (1 - p / 100)) := by
        have h3 := mul_le_mul_of_nonneg_right h1 (le_of_lt hrpf)
        linarith
    _ = (1 + r * (1 - p / 100)) / 200 := by ring

/-- Witness for C7: the amended bound instantiated at the 20000-at-540
scenario, where the round trip lands at 19999.39 and the bound evaluates to
about 2.68. -/
theorem to_mode_roundtrip_bound_witness :
    (0 : ℚ) < 20000 ∧ (0 : ℚ) < 540 ∧
    calc_to_mode 20000 540 1 0 = Except.ok (3741 / 100, 20202 / 100) ∧
    calc_from_mode (3741 / 100) 540 1 0 =
      Except.ok (1999939 / 100, 20201 / 100) ∧
    |(1999939 / 100 : ℚ) - 20000| ≤ (1 + 540 * (1 - 1 / 100)) / 200 := by
  have hto : calc_to_mode 20000 540 1 0 =
      Except.ok (3741 / 100, 20202 / 100) := by
    simp only [calc_to_mode]
    rw [if_neg (by norm_num)]
    norm_num [round2, round_eq, Except.ok.injEq, Prod.mk.injEq]
  have hfrom : calc_from_mode (3741 / 100) 540 1 0 =
      Except.ok (1999939 / 100, 20201 / 100) := by
    rw [calc_from_mode_ok (3741 / 100) 540 1 0 (by norm_num)]
    norm_num [round2, round_eq, Except.ok.injEq, Prod.mk.injEq]
  exact ⟨by norm_num, by norm_num, hto, hfrom,
    to_mode_roundtrip_bound 20000 540 1 0 (3741 / 100) (20202 / 100)
      (1999939 / 100) (20201 / 100) (by norm_num) (by norm_num) hto hfrom⟩

/-! ### Ledger-level lemmas -/

/-- Balance lookup in the post-commit state of a fresh transfer, covering
the aliased case `from_account_id = to_account_id` (the two selects share
the session identity map). -/
theorem balanceOf_freshState (st : DBState) (payload : TransferCreate)
    (fa ta : Account) (rate af at_ c : ℚ) (pid : Nat) :
    balanceOf (freshState st payload fa ta rate af at_ c) pid =
      (st.accounts.find? (fun a => a.id == pid)).map (fun a =>
        if a.id = ta.id then
          (if ta.id = fa.id then fa.balance - af else ta.balance) + at_
        else if a.id = fa.id then fa.balance - af else a.balance) := by
  rw [balanceOf]
  show (List.find? (fun a => a.id == pid)
      (setBalance (setBalance st.accounts fa.id (fa.balance - af)) ta.id
        ((if ta.id == fa.id then fa.balance - af else ta.balance) + at_))).map
      (fun a => a.balance) = _
  rw [find?_setBalance, find?_setBalance, Option.map_map, Option.map_map]
  cases hf : st.accounts.find? (fun a => a.id == pid) with
  | none => rfl
  | some a =>
    simp only [Option.map_some', Function.comp_apply]
    by_cases h1 : a.id = ta.id <;> by_cases h2 : a.id = fa.id <;>
      by_cases h3 : ta.id = fa.id <;>
      simp_all [beq_iff_eq]

/-- The compensating write is a no-op when no committed transfer carries the
target id (in particular for the fresh autoincrement id). -/
theorem markFailed_fresh (st : DBState) (tid : Nat)
    (h : ∀ t ∈ st.transfers, t.id ≠ tid) : markFailed st tid = st := by
  have hmap : st.transfers.map
      (fun t => if t.id == tid then { t with status := "failed" } else t) =
      st.transfers.map id := by
    apply List.map_congr_left
    intro t ht
    rw [if_neg (by simpa using h t ht)]
    rfl
  rw [markFailed, hmap, List.map_id]

/-- Evaluation of `create_transfer` when the atomic mutation unit raises
after the Transfer flush: the session rollback restores the committed state,
so the compensating write targets an id that was never committed. -/
theorem create_transfer_fail
    (st : DBState) (payload : TransferCreate) (user : String) (rate : ℚ)
    (fa ta : Account) (af at_ c : ℚ)
    (hfresh : clientKeyLookup st.transfers payload.client_key = none)
    (hfa : st.accounts.find? (fun a => a.id == payload.from_account_id) =
      some fa)
    (hta : st.accounts.find? (fun a => a.id == payload.to_account_id) =
      some ta)
    (howner : fa.owner_email = user)
    (hcalc : calcAmounts payload.mode payload.amount rate
      payload.commission_percent payload.commission_fixed =
      Except.ok (af, at_, c))
    (hfunds : ¬ fa.balance < af) :
    create_transfer st payload user rate true =
      (markFailed st st.next_transfer_id,
       Except.error TransferError.transferFailed) := by
  rw [create_transfer, hfresh, hfa, hta]
  simp only [howner, ne_eq, not_true_eq_false, if_false, hcalc, hfunds,
    if_true]

/-! ### Claims about the transfer endpoint -/

/-- C1: every valid from-mode transfer request (positive amount and rate,
funds sufficient, distinct accounts, fresh client key) that completes
returns `amount_to = round(amount_from × rate × (1 − p/100) − f, 2)` and
`commission = round(amount_from × rate × (p/100) + f, 2)`, and the commit
debits the source account by exactly `amount_from` and credits the
destination by exactly `amount_to`. -/
theorem from_mode_transfer_correct
    (st : DBState) (payload : TransferCreate) (user : String) (rate : ℚ)
    (fa ta : Account)
    (hfresh : clientKeyLookup st.transfers payload.client_key = none)
    (hfa : st.accounts.find? (fun a => a.id == payload.from_account_id) =
      some fa)
    (hta : st.accounts.find? (fun a => a.id == payload.to_account_id) =
      some ta)
    (howner : fa.owner_email = user)
    (hmode : payload.mode = Mode.fromMode)
    (hne : payload.from_account_id ≠ payload.to_account_id)
    (hamt : 0 < payload.amount) (hrate : 0 < rate)
    (hpos : 0 < payload.amount * rate -
      (payload.amount * rate * (payload.commission_percent / 100) +
        payload.commission_fixed))
    (hfunds : ¬ fa.balance < payload.amount) :
    ∃ st1 out,
      create_transfer st payload user rate false = (st1, Except.ok out) ∧
      out.amount_to = round2 (payload.amount * rate *
        (1 - payload.commission_percent / 100) - payload.commission_fixed) ∧
      out.commission_amount = round2 (payload.amount * rate *
        (payload.commission_percent / 100) + payload.commission_fixed) ∧
      balanceOf st1 payload.from_account_id =
        some (fa.balance - payload.amount) ∧
      balanceOf st1 payload.to_account_id =
        some (ta.balance + out.amount_to) := by
  have hfaid : fa.id = payload.from_account_id := by
    simpa using List.find?_some hfa
  have htaid : ta.id = payload.to_account_id := by
    simpa using List.find?_some hta
  have hidne : ta.id ≠ fa.id := by
    rw [hfaid, htaid]; exact fun h => hne h.symm
  have hcalc : calcAmounts payload.mode payload.amount rate
      payload.commission_percent payload.commission_fixed =
      Except.ok (payload.amount,
        round2 (payload.amount * rate -
          (payload.amount * rate * (payload.commission_percent / 100) +
            payload.commission_fixed)),
        round2 (payload.amount * rate * (payload.commission_percent / 100) +
          payload.commission_fixed)) := by
    rw [hmode]
    exact calcAmounts_from _ _ _ _ hpos
  refine ⟨_, _,
    create_transfer_fresh st payload user rate fa ta payload.amount
      (round2 (payload.amount * rate -
        (payload.amount * rate * (payload.commission_percent / 100) +
          payload.commission_fixed)))
      (round2 (payload.amount * rate * (payload.commission_percent / 100) +
        payload.commission_fixed))
      hfresh hfa hta howner hcalc hfunds, ?_, ?_, ?_, ?_⟩
  · show round2 (payload.amount * rate -
      (payload.amount * rate * (payload.commission_percent / 100) +
        payload.commission_fixed)) = _
    congr 1
    ring
  · rfl
  · rw [balanceOf_freshState, hfa, Option.map_some']
    rw [if_neg (fun h => hidne (Eq.symm h)), if_pos rfl]
  · rw [balanceOf_freshState, hta, Option.map_some']
    rw [if_pos rfl, if_neg hidne]
    rfl

/-- Witness for C1: the USD→KZT scenario — 100.00 at rate 540 with 1%
commission and no fixed fee yields `amount_to = 53460.00`,
`commission = 540.00`, the source debited to 900.00 and the destination
credited to 53460.00. -/
theorem from_mode_transfer_correct_witness :
    (0 : ℚ) < 100 ∧ (0 : ℚ) < 540 ∧ ¬ accUSD.balance < (100 : ℚ) ∧
    round2 ((100 : ℚ) * 540 * (1 - 1 / 100) - 0) = 53460 ∧
    round2 ((100 : ℚ) * 540 * (1 / 100) + 0) = 540 ∧
    (∃ st1 out,
      create_transfer st0 payloadC1 "alice@test.com" 540 false =
        (st1, Except.ok out) ∧
      out.amount_to = round2 ((100 : ℚ) * 540 * (1 - 1 / 100) - 0) ∧
      out.commission_amount = round2 ((100 : ℚ) * 540 * (1 / 100) + 0) ∧
      balanceOf st1 1 = some (accUSD.balance - 100) ∧
      balanceOf st1 2 = some (accKZT.balance + out.amount_to)) :=
  ⟨by norm_num, by norm_num, by norm_num [accUSD],
   by rw [round2, round_eq]; norm_num,
   by rw [round2, round_eq]; norm_num,
   from_mode_transfer_correct st0 payloadC1 "alice@test.com" 540 accUSD
     accKZT rfl rfl rfl rfl rfl (by decide)
     (by norm_num [payloadC1, TransferCreate.ofWire])
     (by norm_num)
     (by norm_num [payloadC1, TransferCreate.ofWire])
     (by norm_num [accUSD, payloadC1, TransferCreate.ofWire])⟩

/-- C4: a transfer request whose source balance is strictly below the
computed `amount_from` is rejected with the insufficient-funds error, the
state is returned unchanged — no Transfer row is created and both balances
keep their prior values. -/
theorem insufficient_funds_rejected
    (st : DBState) (payload : TransferCreate) (user : String) (rate : ℚ)
    (fm : Bool) (fa ta : Account) (af at_ c : ℚ)
    (hfresh : clientKeyLookup st.transfers payload.client_key = none)
    (hfa : st.accounts.find? (fun a => a.id == payload.from_account_id) =
      some fa)
    (hta : st.accounts.find? (fun a => a.id == payload.to_account_id) =
      some ta)
    (howner : fa.owner_email = user)
    (hcalc : calcAmounts payload.mode payload.amount rate
      payload.commission_percent payload.commission_fixed =
      Except.ok (af, at_, c))
    (hins : fa.balance < af) :
    create_transfer st payload user rate fm =
      (st, Except.error TransferError.insufficientFunds) :=
  create_transfer_insufficient st payload user rate fm fa ta af at_ c
    hfresh hfa hta howner hcalc hins

/-- Witness for C4: source balance 50.00, from-mode amount 100 at rate 540
— rejected, state unchanged (balance still 50.00, no Transfer row). -/
theorem insufficient_funds_rejected_witness :
    accLowUSD.balance < (100 : ℚ) ∧
    create_transfer stLow payloadC4 "carol@test.com" 540 false =
      (stLow, Except.error TransferError.insufficientFunds) := by
  have hcalc : calcAmounts payloadC4.mode payloadC4.amount 540
      payloadC4.commission_percent payloadC4.commission_fixed =
      Except.ok (100, 53460, 540) := by
    show calcAmounts Mode.fromMode 100 540 1 0 = _
    rw [calcAmounts_from 100 540 1 0 (by norm_num)]
    norm_num [round2, round_eq, Except.ok.injEq, Prod.mk.injEq]
  exact ⟨by norm_num [accLowUSD],
    insufficient_funds_rejected stLow payloadC4 "carol@test.com" 540 false
      accLowUSD accKZT 100 53460 540 rfl rfl rfl rfl hcalc
      (by norm_num [accLowUSD])⟩

/-- C6: a committed (completed) transfer never leaves the source account
with a negative balance: the funds check `balance ≥ amount_from` makes the
post-debit source balance nonnegative, including the aliased
source-equals-destination case. -/
theorem completed_transfer_source_nonneg
    (st : DBState) (payload : TransferCreate) (user : String) (rate : ℚ)
    (fa ta : Account) (af at_ c : ℚ)
    (hfresh : clientKeyLookup st.transfers payload.client_key = none)
    (hfa : st.accounts.find? (fun a => a.id == payload.from_account_id) =
      some fa)
    (hta : st.accounts.find? (fun a => a.id == payload.to_account_id) =
      some ta)
    (howner : fa.owner_email = user)
    (hcalc : calcAmounts payload.mode payload.amount rate
      payload.commission_percent payload.commission_fixed =
      Except.ok (af, at_, c))
    (hfunds : ¬ fa.balance < af)
    (hamt : 0 < payload.amount) :
    ∃ st1 out,
      create_transfer st payload user rate false = (st1, Except.ok out) ∧
      ∀ b, balanceOf st1 payload.from_account_id = some b → 0 ≤ b := by
  refine ⟨_, _,
    create_transfer_fresh st payload user rate fa ta af at_ c
      hfresh hfa hta howner hcalc hfunds, ?_⟩
  intro b hb
  rw [balanceOf_freshState, hfa, Option.map_some', Option.some.injEq] at hb
  have hat : 0 ≤ at_ := calcAmounts_amount_to_nonneg hamt hcalc
  have hb1 : 0 ≤ fa.balance - af := by linarith [not_lt.mp hfunds]
  rw [← hb]
  split_ifs with h1 h2 h3
  · linarith
  · exact absurd h1.symm h2
  · linarith
  · exact absurd rfl h3

/-- Witness for C6: the USD→KZT scenario leaves the source at 900.00 ≥ 0. -/
theorem completed_transfer_source_nonneg_witness :
    ¬ accUSD.balance < (100 : ℚ) ∧
    (∃ st1 out,
      create_transfer st0 payloadC1 "alice@test.com" 540 false =
        (st1, Except.ok out) ∧
      ∀ b, balanceOf st1 1 = some b → 0 ≤ b) := by
  have hcalc : calcAmounts payloadC1.mode payloadC1.amount 540
      payloadC1.commission_percent payloadC1.commission_fixed =
      Except.ok (100, 53460, 540) := by
    show calcAmounts Mode.fromMode 100 540 1 0 = _
    rw [calcAmounts_from 100 540 1 0 (by norm_num)]
    norm_num [round2, round_eq, Except.ok.injEq, Prod.mk.injEq]
  exact ⟨by norm_num [accUSD],
    completed_transfer_source_nonneg st0 payloadC1 "alice@test.com" 540
      accUSD accKZT 100 53460 540 rfl rfl rfl rfl hcalc
      (by norm_num [accUSD])
      (by norm_num [payloadC1, TransferCreate.ofWire])⟩

/-- C10: when the payload carries a client_key for which a Transfer already
exists, the stored Transfer is returned for any caller — the replay lookup
precedes the account-existence and ownership checks, so neither Forbidden
nor AccountNotFound can occur on the replay path. -/
theorem replay_skips_account_and_owner_checks
    (st : DBState) (payload : TransferCreate) (user : String) (rate : ℚ)
    (fm : Bool) (k : String) (t : Transfer)
    (hk : payload.client_key = some k) (hk0 : k ≠ "")
    (hfound : st.transfers.find? (fun tr => tr.client_key == some k) =
      some t) :
    create_transfer st payload user rate fm =
      (st, Except.ok (TransferOut.ofTransfer t)) :=
  create_transfer_replay st payload user rate fm k t hk hk0 hfound

/-- Witness for C10: the state has no accounts at all and the caller is not
the owner, yet the replay of key "dup-1" returns the stored transfer. -/
theorem replay_skips_checks_witness :
    stReplay.accounts = [] ∧
    storedTransfer.client_key = some "dup-1" ∧
    create_transfer stReplay payloadDup "mallory@test.com" 540 false =
      (stReplay, Except.ok (TransferOut.ofTransfer storedTransfer)) :=
  ⟨rfl, rfl,
   replay_skips_account_and_owner_checks stReplay payloadDup
     "mallory@test.com" 540 false "dup-1" storedTransfer rfl (by decide)
     rfl⟩

/-- C3: submitting two requests with the same truthy client_key, the first
of which succeeds freshly, yields exactly one Transfer row carrying that
key, the same success response twice, and a second call that changes no
state (no balance touched, no new row). -/
theorem client_key_idempotent
    (st : DBState) (p1 p2 : TransferCreate) (user user2 : String)
    (rate rate2 : ℚ) (fm2 : Bool) (k : String) (fa ta : Account)
    (af at_ c : ℚ)
    (hk1 : p1.client_key = some k) (hk0 : k ≠ "")
    (hnone : st.transfers.find? (fun t => t.client_key == some k) = none)
    (hk2 : p2.client_key = some k)
    (hfa : st.accounts.find? (fun a => a.id == p1.from_account_id) =
      some fa)
    (hta : st.accounts.find? (fun a => a.id == p1.to_account_id) = some ta)
    (howner : fa.owner_email = user)
    (hcalc : calcAmounts p1.mode p1.amount rate p1.commission_percent
      p1.commission_fixed = Except.ok (af, at_, c))
    (hfunds : ¬ fa.balance < af) :
    ∃ st1 out,
      create_transfer st p1 user rate false = (st1, Except.ok out) ∧
      create_transfer st1 p2 user2 rate2 fm2 = (st1, Except.ok out) ∧
      (st1.transfers.filter (fun t => t.client_key == some k)).length = 1 ∧
      st1.transfers.length = st.transfers.length + 1 := by
  have hfresh : clientKeyLookup st.transfers p1.client_key = none := by
    rw [hk1]
    simp only [clientKeyLookup]
    rw [if_neg (by simpa using hk0), hnone]
  have h1 := create_transfer_fresh st p1 user rate fa ta af at_ c
    hfresh hfa hta howner hcalc hfunds
  have hTkey : (completedTransfer st p1 fa ta rate af at_ c).client_key =
      some k := by
    simpa [completedTransfer] using hk1
  have hfound : (freshState st p1 fa ta rate af at_ c).transfers.find?
      (fun t => t.client_key == some k) =
      some (completedTransfer st p1 fa ta rate af at_ c) := by
    show (st.transfers ++ [completedTransfer st p1 fa ta rate af at_ c]).find?
      (fun t => t.client_key == some k) = _
    rw [find?_append_of_none hnone]
    simp [hTkey]
  have h2 := create_transfer_replay (freshState st p1 fa ta rate af at_ c)
    p2 user2 rate2 fm2 k (completedTransfer st p1 fa ta rate af at_ c)
    hk2 hk0 hfound
  refine ⟨_, _, h1, h2, ?_, ?_⟩
  · show ((st.transfers ++ [completedTransfer st p1 fa ta rate af at_ c]).filter
      (fun t => t.client_key == some k)).length = 1
    rw [List.filter_append]
    have hnil : st.transfers.filter (fun t => t.client_key == some k) = [] :=
      List.filter_eq_nil_iff.mpr (List.find?_eq_none.mp hnone)
    rw [hnil]
    simp [hTkey]
  · show (st.transfers ++ [completedTransfer st p1 fa ta rate af at_ c]).length =
      st.transfers.length + 1
    simp

/-- Witness for C3: the 100-at-1% request under key "w3" submitted twice
against `st0` — one row, identical responses, second call a pure read. -/
theorem client_key_idempotent_witness :
    ("w3" : String) ≠ "" ∧
    (∃ st1 out,
      create_transfer st0 payloadC3 "alice@test.com" 540 false =
        (st1, Except.ok out) ∧
      create_transfer st1 payloadC3 "alice@test.com" 540 false =
        (st1, Except.ok out) ∧
      (st1.transfers.filter (fun t => t.client_key == some "w3")).length = 1 ∧
      st1.transfers.length = st0.transfers.length + 1) := by
  have hcalc : calcAmounts payloadC3.mode payloadC3.amount 540
      payloadC3.commission_percent payloadC3.commission_fixed =
      Except.ok (100, 53460, 540) := by
    show calcAmounts Mode.fromMode 100 540 1 0 = _
    rw [calcAmounts_from 100 540 1 0 (by norm_num)]
    norm_num [round2, round_eq, Except.ok.injEq, Prod.mk.injEq]
  exact ⟨by decide,
    client_key_idempotent st0 payloadC3 payloadC3 "alice@test.com"
      "alice@test.com" 540 540 false "w3" accUSD accKZT 100 53460 540
      rfl (by decide) rfl rfl rfl rfl rfl hcalc (by norm_num [accUSD])⟩

/-- C2: when the atomic mutation unit raises after the Transfer row was
flushed (injected failure), the session rollback restores the pre-request
committed state, so both balances are untouched and the caller receives the
transfer-failed error — but the rollback also discards the uncommitted
Transfer insert, so the compensating write finds nothing and NO Transfer
row (in particular none with status `failed`) is persisted: the final state
still holds zero transfers. -/
theorem failed_mutation_no_failed_row :
    create_transfer st0 payloadC2 "alice@test.com" 540 true =
      (st0, Except.error TransferError.transferFailed) ∧
    st0.transfers = [] := by
  refine ⟨?_, rfl⟩
  have hcalc : calcAmounts payloadC2.mode payloadC2.amount 540
      payloadC2.commission_percent payloadC2.commission_fixed =
      Except.ok (100, 53460, 540) := by
    show calcAmounts Mode.fromMode 100 540 1 0 = _
    rw [calcAmounts_from 100 540 1 0 (by norm_num)]
    norm_num [round2, round_eq, Except.ok.injEq, Prod.mk.injEq]
  have h := create_transfer_fail st0 payloadC2 "alice@test.com" 540
    accUSD accKZT 100 53460 540 rfl rfl rfl rfl hcalc
    (by norm_num [accUSD])
  rw [h, markFailed_fresh st0 st0.next_transfer_id (by simp [st0])]

/-- C9: a request that omits both commission fields is computed with a 0%
commission — pydantic fills the schema default `0.0` (never `None`), so the
`is not None` guard in main.py can never select `DEFAULT_PERCENT = 1.0`:
100 USD at rate 540 yields `amount_to = 54000.00` and `commission = 0.00`
instead of the documented default outcome 53460.00 / 540.00. -/
theorem omitted_commission_computed_with_zero :
    payloadC9.commission_percent = 0 ∧ payloadC9.commission_fixed = 0 ∧
    DEFAULT_PERCENT = 1 ∧
    (create_transfer st0 payloadC9 "alice@test.com" 540 false).2 =
      Except.ok
        { id := 1, status := "completed", from_account_id := 1,
          to_account_id := 2, currency_from := "USD",
          currency_to := "KZT", amount_from := 100, amount_to := 54000,
          commission_amount := 0, rate_used := 540 } := by
  refine ⟨rfl, rfl, rfl, ?_⟩
  have hcalc : calcAmounts payloadC9.mode payloadC9.amount 540
      payloadC9.commission_percent payloadC9.commission_fixed =
      Except.ok (100, 54000, 0) := by
    show calcAmounts Mode.fromMode 100 540 0 0 = _
    rw [calcAmounts_from 100 540 0 0 (by norm_num)]
    norm_num [round2, round_eq, Except.ok.injEq, Prod.mk.injEq]
  have h := create_transfer_fresh st0 payloadC9 "alice@test.com" 540
    accUSD accKZT 100 54000 0 rfl rfl rfl rfl hcalc
    (by norm_num [accUSD])
  rw [h]
  rfl

end MoneyTransfer
